import Mathlib

/-
Shallow embedding of the CoralSwap pair contract core
(src/src/pair/src/lib.rs, storage.rs, errors.rs).

Soroban Address is an opaque value type with decidable equality and a
total order (Ord), which the contract relies on for token
canonicalization; it is modelled as Nat with the usual order.  The
distinguished null address (the strkey
GAAAAAAAAAAAAAAAAAAAAAAAAAAAAAAAAAAAAAAAAAAAAAAAAAAAAWHF, the all-zero
ed25519 key) is modelled as the value 0, compared by value equality as in
the source.  The instance key-value store is modelled as a record of
three optional slots, one per DataKey variant, plus the TTL horizon.
Each contract entry point is a pure state-passing function; a fallible
entry point returns an Except, and an accessor that unwraps an absent
record returns none (the unrecoverable host abort).
-/

/-- Address type: opaque host address values with their total order. -/
abbrev Addr := Nat

/-- The distinguished all-zero null address built once from its canonical
string encoding in lib.rs line 17. -/
def zeroAddress : Addr := 0

/-- lib.rs is_zero_address: value equality with the null-address literal. -/
def is_zero_address (a : Addr) : Bool :=
  a == zeroAddress

/-- errors.rs PairError: the closed error taxonomy with stable codes. -/
inductive PairError where
  | AlreadyInitialized
  | ZeroAddress
  | IdenticalTokens
  | InsufficientLiquidityMinted
  | InsufficientLiquidityBurned
  | InsufficientOutputAmount
  | InsufficientLiquidity
  | InvalidAmount
  | KInvariant
  | InsufficientInputAmount
  | Locked
  | Expired
  | ConstraintNotMet
  | InvalidFee
  deriving DecidableEq, Repr

/-- errors.rs: the stable numeric discriminants (ABI codes 100..113). -/
def PairError.code : PairError → Nat
  | .AlreadyInitialized => 100
  | .ZeroAddress => 101
  | .IdenticalTokens => 102
  | .InsufficientLiquidityMinted => 103
  | .InsufficientLiquidityBurned => 104
  | .InsufficientOutputAmount => 105
  | .InsufficientLiquidity => 106
  | .InvalidAmount => 107
  | .KInvariant => 108
  | .InsufficientInputAmount => 109
  | .Locked => 110
  | .Expired => 111
  | .ConstraintNotMet => 112
  | .InvalidFee => 113

/-- storage.rs PairStorage: pair identity plus reserves.
reserve_0 and reserve_1 are i128 in the source, modelled as Int;
block_timestamp_last is u64, modelled as Nat. -/
structure PairStorage where
  factory : Addr
  token_0 : Addr
  token_1 : Addr
  lp_token : Addr
  reserve_0 : Int
  reserve_1 : Int
  block_timestamp_last : Nat
  deriving DecidableEq, Repr

/-- storage.rs FeeState: u32 basis-point bounds, modelled as Nat. -/
structure FeeState where
  baseline_bps : Nat
  min_bps : Nat
  max_bps : Nat
  deriving DecidableEq, Repr

/-- storage.rs ReentrancyGuard. -/
structure ReentrancyGuard where
  locked : Bool
  deriving DecidableEq, Repr

/-- The contract instance storage: one optional slot per DataKey variant
(PairStorage, FeeState, ReentrancyGuard), plus the TTL horizon in ledgers. -/
structure InstanceStorage where
  pairStorage : Option PairStorage
  feeState : Option FeeState
  reentrancyGuard : Option ReentrancyGuard
  ttl : Nat
  deriving DecidableEq, Repr

/-- A freshly deployed, never-touched instance: every slot absent. -/
def emptyStorage : InstanceStorage :=
  { pairStorage := none, feeState := none, reentrancyGuard := none, ttl := 0 }

/-- lib.rs Pair::initialize, as a state-passing function.  The three guard
checks (double-init, zero-address, identical tokens) run in the source
order; on success the canonically ordered PairStorage, the fixed FeeState
(30/10/100) and the unlocked ReentrancyGuard are written and the TTL is
extended by extend_ttl(120960, 120960), modelled as a max-bump. -/
def initPair (s : InstanceStorage) (factory token_a token_b lp_token : Addr) :
    Except PairError Unit × InstanceStorage :=
  if (s.pairStorage).isSome then
    (Except.error PairError.AlreadyInitialized, s)
  else if is_zero_address factory || is_zero_address token_a ||
      is_zero_address token_b || is_zero_address lp_token then
    (Except.error PairError.ZeroAddress, s)
  else if token_a == token_b then
    (Except.error PairError.IdenticalTokens, s)
  else
    let token_0 := if token_a < token_b then token_a else token_b
    let token_1 := if token_a < token_b then token_b else token_a
    let st : PairStorage :=
      { factory := factory, token_0 := token_0, token_1 := token_1,
        lp_token := lp_token, reserve_0 := 0, reserve_1 := 0,
        block_timestamp_last := 0 }
    let fs : FeeState := { baseline_bps := 30, min_bps := 10, max_bps := 100 }
    let rg : ReentrancyGuard := { locked := false }
    (Except.ok (),
      { pairStorage := some st, feeState := some fs, reentrancyGuard := some rg,
        ttl := max s.ttl 120960 })

/-- lib.rs Pair::get_reserves: unwraps the PairStorage record; an absent
record is the fatal abort, modelled as none.  The only storage operation
performed is a read, so the state component is returned unchanged. -/
def get_reserves (s : InstanceStorage) :
    Option (Int × Int × Nat) × InstanceStorage :=
  ((s.pairStorage).map fun ps =>
    (ps.reserve_0, ps.reserve_1, ps.block_timestamp_last), s)

/-- lib.rs Pair::get_fee_state: unwraps the FeeState record; an absent
record is the fatal abort, modelled as none.  Read-only. -/
def get_fee_state (s : InstanceStorage) : Option FeeState × InstanceStorage :=
  (s.feeState, s)

/-- The states reachable from a fresh deployment through the operations of
this core. -/
inductive Reachable : InstanceStorage → Prop where
  | empty : Reachable emptyStorage
  | step_init (s : InstanceStorage) (f a b l : Addr) :
      Reachable s → Reachable (initPair s f a b l).2
  | step_reserves (s : InstanceStorage) :
      Reachable s → Reachable (get_reserves s).2
  | step_fee (s : InstanceStorage) :
      Reachable s → Reachable (get_fee_state s).2

/-- Helper: the double-init guard fires first whenever the record exists. -/
theorem initPair_already (s : InstanceStorage) (f a b l : Addr)
    (h : (s.pairStorage).isSome = true) :
    initPair s f a b l = (Except.error PairError.AlreadyInitialized, s) := by
  simp [initPair, h]

/-- Helper: on a fresh instance, a null address among the four arguments
yields ZeroAddress and an untouched store. -/
theorem initPair_zero_err (s : InstanceStorage) (f a b l : Addr)
    (hs : s.pairStorage = none)
    (hz : (is_zero_address f || is_zero_address a ||
      is_zero_address b || is_zero_address l) = true) :
    initPair s f a b l = (Except.error PairError.ZeroAddress, s) := by
  simp [initPair, hs, hz]

/-- Helper: on a fresh instance with no null address, identical tokens
yield IdenticalTokens and an untouched store. -/
theorem initPair_identical_err (s : InstanceStorage) (f a b l : Addr)
    (hs : s.pairStorage = none)
    (hz : (is_zero_address f || is_zero_address a ||
      is_zero_address b || is_zero_address l) = false)
    (hab : a = b) :
    initPair s f a b l = (Except.error PairError.IdenticalTokens, s) := by
  subst hab
  simp_all [initPair]

/-- Helper: when all three guards pass, the exact successor state. -/
theorem initPair_ok_state (s : InstanceStorage) (f a b l : Addr)
    (hs : s.pairStorage = none)
    (hz : (is_zero_address f || is_zero_address a ||
      is_zero_address b || is_zero_address l) = false)
    (hab : a ≠ b) :
    initPair s f a b l =
      (Except.ok (),
       { pairStorage := some
           { factory := f,
             token_0 := if a < b then a else b,
             token_1 := if a < b then b else a,
             lp_token := l, reserve_0 := 0, reserve_1 := 0,
             block_timestamp_last := 0 },
         feeState := some { baseline_bps := 30, min_bps := 10, max_bps := 100 },
         reentrancyGuard := some { locked := false },
         ttl := max s.ttl 120960 }) := by
  simp [initPair, hs, hz, hab]

/-- Helper: every error leaves the store exactly as it was. -/
theorem initPair_error_state (s : InstanceStorage) (f a b l : Addr)
    (e : PairError) (h : (initPair s f a b l).1 = Except.error e) :
    (initPair s f a b l).2 = s := by
  unfold initPair at h ⊢
  split_ifs at h ⊢ <;> simp_all

/-- Helper: success is possible only on a fresh instance. -/
theorem initPair_ok_fresh (s : InstanceStorage) (f a b l : Addr)
    (h : (initPair s f a b l).1 = Except.ok ()) : s.pairStorage = none := by
  by_cases hs : (s.pairStorage).isSome = true
  · rw [initPair_already s f a b l hs] at h
    exact absurd h (by simp)
  · simpa [Option.isSome_iff_ne_none] using hs

/-- Helper: a successful call certifies that all three guards passed. -/
theorem initPair_ok_cases (s : InstanceStorage) (f a b l : Addr)
    (h : (initPair s f a b l).1 = Except.ok ()) :
    s.pairStorage = none ∧
    (is_zero_address f || is_zero_address a ||
      is_zero_address b || is_zero_address l) = false ∧
    a ≠ b := by
  unfold initPair at h
  split_ifs at h with h1 h2 h3 <;> simp_all [Option.isSome_iff_ne_none]

/-- Helper: every reachable store is either still completely fresh, or
holds the canonically ordered pair record together with the fixed fee
configuration and the unlocked guard. -/
theorem reachable_cases (s : InstanceStorage) (h : Reachable s) :
    (s.pairStorage = none ∧ s.feeState = none ∧ s.reentrancyGuard = none) ∨
    (∃ ps, s.pairStorage = some ps ∧ ps.token_0 < ps.token_1 ∧
      s.feeState = some { baseline_bps := 30, min_bps := 10, max_bps := 100 } ∧
      s.reentrancyGuard = some { locked := false }) := by
  induction h with
  | empty => exact Or.inl ⟨rfl, rfl, rfl⟩
  | step_init s f a b l hr ih =>
      rcases ih with ⟨hnone, hfee, hrg⟩ | ⟨ps, hps, hord, hfee, hrg⟩
      · by_cases hz : (is_zero_address f || is_zero_address a ||
            is_zero_address b || is_zero_address l) = true
        · rw [initPair_zero_err s f a b l hnone hz]
          exact Or.inl ⟨hnone, hfee, hrg⟩
        · by_cases hab : a = b
          · rw [initPair_identical_err s f a b l hnone (by simpa using hz) hab]
            exact Or.inl ⟨hnone, hfee, hrg⟩
          · rw [initPair_ok_state s f a b l hnone (by simpa using hz) hab]
            refine Or.inr ⟨_, rfl, ?_, rfl, rfl⟩
            rcases Nat.lt_or_ge a b with hlt | hge
            · simp [hlt]
            · have hgt : b < a := Nat.lt_of_le_of_ne hge fun hba => hab hba.symm
              have hnlt : ¬ a < b := Nat.not_lt_of_ge hge
              simpa [hnlt] using hgt
      · rw [initPair_already s f a b l (by simp [hps])]
        exact Or.inr ⟨ps, hps, hord, hfee, hrg⟩
  | step_reserves s hr ih => simpa [get_reserves] using ih
  | step_fee s hr ih => simpa [get_fee_state] using ih

/-- C1: initialize evaluates its three preconditions in the source order
(record-exists, null-address, identical-tokens); the first failing check
determines the error (AlreadyInitialized, ZeroAddress, IdenticalTokens
respectively), and every error leaves the persistent store completely
unchanged. -/
theorem initPair_check_order (s : InstanceStorage) (f a b l : Addr) :
    ((s.pairStorage).isSome = true →
      initPair s f a b l = (Except.error PairError.AlreadyInitialized, s)) ∧
    (s.pairStorage = none →
      (is_zero_address f || is_zero_address a ||
        is_zero_address b || is_zero_address l) = true →
      initPair s f a b l = (Except.error PairError.ZeroAddress, s)) ∧
    (s.pairStorage = none →
      (is_zero_address f || is_zero_address a ||
        is_zero_address b || is_zero_address l) = false →
      a = b →
      initPair s f a b l = (Except.error PairError.IdenticalTokens, s)) ∧
    (∀ e : PairError, (initPair s f a b l).1 = Except.error e →
      (initPair s f a b l).2 = s) :=
  ⟨initPair_already s f a b l,
   initPair_zero_err s f a b l,
   initPair_identical_err s f a b l,
   initPair_error_state s f a b l⟩

/-- Witness for C1 at concrete addresses: an initialized store rejects a
second call with AlreadyInitialized; a fresh store rejects a null factory
with ZeroAddress and identical tokens with IdenticalTokens, each leaving
the store untouched. -/
theorem initPair_check_order_witness :
    initPair (initPair emptyStorage 9 1 2 5).2 9 1 2 5 =
      (Except.error PairError.AlreadyInitialized,
        (initPair emptyStorage 9 1 2 5).2) ∧
    initPair emptyStorage zeroAddress 1 2 5 =
      (Except.error PairError.ZeroAddress, emptyStorage) ∧
    initPair emptyStorage 9 1 1 5 =
      (Except.error PairError.IdenticalTokens, emptyStorage) ∧
    (initPair emptyStorage 9 1 1 5).2 = emptyStorage :=
  ⟨(initPair_check_order (initPair emptyStorage 9 1 2 5).2 9 1 2 5).1
      (by decide),
   (initPair_check_order emptyStorage zeroAddress 1 2 5).2.1 rfl (by decide),
   (initPair_check_order emptyStorage 9 1 1 5).2.2.1 rfl (by decide) rfl,
   (initPair_check_order emptyStorage 9 1 1 5).2.2.2
      PairError.IdenticalTokens rfl⟩

/-- C2: once the PairStorage record exists, every later call of initialize,
with any arguments, fails with AlreadyInitialized and changes nothing, and
no operation of this core ever removes the record, so the system never
returns from Initialized to Uninitialized. -/
theorem initPair_single_use (s : InstanceStorage) (f a b l : Addr)
    (h : (s.pairStorage).isSome = true) :
    initPair s f a b l = (Except.error PairError.AlreadyInitialized, s) ∧
    (∀ g c d m : Addr, (((initPair s g c d m).2).pairStorage).isSome = true) ∧
    (((get_reserves s).2).pairStorage).isSome = true ∧
    (((get_fee_state s).2).pairStorage).isSome = true := by
  refine ⟨initPair_already s f a b l h, ?_, h, h⟩
  intro g c d m
  rw [initPair_already s g c d m h]
  exact h

/-- Witness for C2: a concretely initialized store rejects a second call
with different arguments and keeps its record. -/
theorem initPair_single_use_witness :
    initPair (initPair emptyStorage 9 1 2 5).2 7 3 4 8 =
      (Except.error PairError.AlreadyInitialized,
        (initPair emptyStorage 9 1 2 5).2) ∧
    (((initPair (initPair emptyStorage 9 1 2 5).2 7 3 4 8).2).pairStorage).isSome
      = true :=
  ⟨(initPair_single_use (initPair emptyStorage 9 1 2 5).2 7 3 4 8
      (by decide)).1,
   (initPair_single_use (initPair emptyStorage 9 1 2 5).2 7 3 4 8
      (by decide)).2.1 7 3 4 8⟩

/-- C3: token canonicalization is commutative: on two fresh instances,
swapping token_a and token_b yields the same successful result and the
identical stored pair (min A B, max A B). -/
theorem initPair_canonical_commutative (s₁ s₂ : InstanceStorage)
    (f A B l : Addr)
    (h₁ : s₁.pairStorage = none) (h₂ : s₂.pairStorage = none)
    (hf : is_zero_address f = false) (hA : is_zero_address A = false)
    (hB : is_zero_address B = false) (hl : is_zero_address l = false)
    (hAB : A ≠ B) :
    (initPair s₁ f A B l).1 = Except.ok () ∧
    (initPair s₂ f B A l).1 = Except.ok () ∧
    ((initPair s₁ f A B l).2).pairStorage =
      ((initPair s₂ f B A l).2).pairStorage ∧
    ((initPair s₁ f A B l).2).pairStorage = some
      { factory := f, token_0 := min A B, token_1 := max A B, lp_token := l,
        reserve_0 := 0, reserve_1 := 0, block_timestamp_last := 0 } := by
  have hz₁ : (is_zero_address f || is_zero_address A ||
      is_zero_address B || is_zero_address l) = false := by
    simp [hf, hA, hB, hl]
  have hz₂ : (is_zero_address f || is_zero_address B ||
      is_zero_address A || is_zero_address l) = false := by
    simp [hf, hA, hB, hl]
  rw [initPair_ok_state s₁ f A B l h₁ hz₁ hAB,
      initPair_ok_state s₂ f B A l h₂ hz₂ (Ne.symm hAB)]
  rcases Nat.lt_or_ge A B with hlt | hge
  · have hnlt : ¬ B < A := Nat.not_lt_of_ge (Nat.le_of_lt hlt)
    simp [hlt, hnlt, Nat.min_eq_left (Nat.le_of_lt hlt),
      Nat.max_eq_right (Nat.le_of_lt hlt)]
  · have hgt : B < A := Nat.lt_of_le_of_ne hge fun hba => hAB hba.symm
    have hnlt : ¬ A < B := Nat.not_lt_of_ge hge
    simp [hgt, hnlt, Nat.min_eq_right hge, Nat.max_eq_left hge]

/-- Witness for C3: with A = 1, B = 2 the two argument orders store the same
canonical record. -/
theorem initPair_canonical_commutative_witness :
    (initPair emptyStorage 9 1 2 5).1 = Except.ok () ∧
    (initPair emptyStorage 9 2 1 5).1 = Except.ok () ∧
    ((initPair emptyStorage 9 1 2 5).2).pairStorage =
      ((initPair emptyStorage 9 2 1 5).2).pairStorage ∧
    ((initPair emptyStorage 9 1 2 5).2).pairStorage = some
      { factory := 9, token_0 := min 1 2, token_1 := max 1 2, lp_token := 5,
        reserve_0 := 0, reserve_1 := 0, block_timestamp_last := 0 } :=
  initPair_canonical_commutative emptyStorage emptyStorage 9 1 2 5
    rfl rfl (by decide) (by decide) (by decide) (by decide) (by decide)

/-- C4: after any successful initialize, get_reserves returns (0, 0, 0) and
get_fee_state returns the fixed configuration 30/10/100. -/
theorem initPair_post_state_reads (s : InstanceStorage) (f a b l : Addr)
    (h : (initPair s f a b l).1 = Except.ok ()) :
    (get_reserves (initPair s f a b l).2).1 = some (0, 0, 0) ∧
    (get_fee_state (initPair s f a b l).2).1 =
      some { baseline_bps := 30, min_bps := 10, max_bps := 100 } := by
  obtain ⟨hs, hz, hab⟩ := initPair_ok_cases s f a b l h
  rw [initPair_ok_state s f a b l hs hz hab]
  exact ⟨rfl, rfl⟩

/-- Witness for C4 at concrete addresses. -/
theorem initPair_post_state_reads_witness :
    (get_reserves (initPair emptyStorage 9 1 2 5).2).1 = some (0, 0, 0) ∧
    (get_fee_state (initPair emptyStorage 9 1 2 5).2).1 =
      some { baseline_bps := 30, min_bps := 10, max_bps := 100 } :=
  initPair_post_state_reads emptyStorage 9 1 2 5 rfl

/-- C5 counterexample: with a null factory and identical non-null tokens on
a fresh instance, initialize returns ZeroAddress, not IdenticalTokens as
the claim asserts, because the null-address check runs first. -/
theorem initPair_identical_null_factory_counterexample :
    initPair emptyStorage zeroAddress 1 1 5 =
      (Except.error PairError.ZeroAddress, emptyStorage) ∧
    PairError.ZeroAddress ≠ PairError.IdenticalTokens := by
  exact ⟨rfl, by decide⟩

/-- C5 amended: on an uninitialized instance with token_a == token_b and
none of the four addresses null, initialize fails with IdenticalTokens,
regardless of the (non-null) values of factory and lp_token. -/
theorem initPair_identical_tokens_amended (s : InstanceStorage)
    (f a b l : Addr)
    (hs : s.pairStorage = none)
    (hf : is_zero_address f = false) (ha : is_zero_address a = false)
    (hb : is_zero_address b = false) (hl : is_zero_address l = false)
    (hab : a = b) :
    initPair s f a b l = (Except.error PairError.IdenticalTokens, s) := by
  refine initPair_identical_err s f a b l hs ?_ hab
  simp [hf, ha, hb, hl]

/-- Witness for the amended C5 at concrete non-null addresses. -/
theorem initPair_identical_tokens_amended_witness :
    initPair emptyStorage 9 1 1 5 =
      (Except.error PairError.IdenticalTokens, emptyStorage) :=
  initPair_identical_tokens_amended emptyStorage 9 1 1 5 rfl
    (by decide) (by decide) (by decide) (by decide) rfl

/-- C6: on an uninitialized instance, a null address in any single one of
the four parameter positions makes initialize fail with the one
undifferentiated ZeroAddress error and leaves the store unchanged. -/
theorem initPair_zero_address_any_position (s : InstanceStorage)
    (f a b l : Addr)
    (hs : s.pairStorage = none)
    (h : f = zeroAddress ∨ a = zeroAddress ∨ b = zeroAddress ∨
      l = zeroAddress) :
    initPair s f a b l = (Except.error PairError.ZeroAddress, s) := by
  refine initPair_zero_err s f a b l hs ?_
  rcases h with h | h | h | h <;> simp [is_zero_address, h]

/-- Witness for C6: the null address in each of the four positions in turn
produces ZeroAddress on a fresh store. -/
theorem initPair_zero_address_any_position_witness :
    initPair emptyStorage zeroAddress 1 2 5 =
      (Except.error PairError.ZeroAddress, emptyStorage) ∧
    initPair emptyStorage 9 zeroAddress 2 5 =
      (Except.error PairError.ZeroAddress, emptyStorage) ∧
    initPair emptyStorage 9 1 zeroAddress 5 =
      (Except.error PairError.ZeroAddress, emptyStorage) ∧
    initPair emptyStorage 9 1 2 zeroAddress =
      (Except.error PairError.ZeroAddress, emptyStorage) :=
  ⟨initPair_zero_address_any_position emptyStorage zeroAddress 1 2 5 rfl
      (Or.inl rfl),
   initPair_zero_address_any_position emptyStorage 9 zeroAddress 2 5 rfl
      (Or.inr (Or.inl rfl)),
   initPair_zero_address_any_position emptyStorage 9 1 zeroAddress 5 rfl
      (Or.inr (Or.inr (Or.inl rfl))),
   initPair_zero_address_any_position emptyStorage 9 1 2 zeroAddress rfl
      (Or.inr (Or.inr (Or.inr rfl)))⟩

/-- C7: in every reachable state the stored pair satisfies
token_0 < token_1 (hence token_0 is not token_1), and once the record
exists no operation of this core changes the stored identity: a further
initialize call leaves the whole store untouched and both accessors leave
the whole store untouched. -/
theorem pair_identity_invariant (s : InstanceStorage) (h : Reachable s) :
    (∀ ps : PairStorage, s.pairStorage = some ps →
      ps.token_0 < ps.token_1 ∧ ps.token_0 ≠ ps.token_1) ∧
    (∀ f a b l : Addr, (s.pairStorage).isSome = true →
      (initPair s f a b l).2 = s) ∧
    (get_reserves s).2 = s ∧ (get_fee_state s).2 = s := by
  refine ⟨?_, ?_, rfl, rfl⟩
  · intro ps hps
    rcases reachable_cases s h with ⟨hnone, _, _⟩ | ⟨ps₂, hps₂, hord, _, _⟩
    · rw [hnone] at hps; exact absurd hps (by simp)
    · rw [hps₂] at hps
      obtain rfl : ps₂ = ps := Option.some_injective _ hps
      exact ⟨hord, Nat.ne_of_lt hord⟩
  · intro f a b l hsome
    rw [initPair_already s f a b l hsome]

/-- Witness for C7 on the concrete reachable state reached by one
successful initialize call. -/
theorem pair_identity_invariant_witness :
    ((1 : Addr) < 2 ∧ (1 : Addr) ≠ 2) ∧
    (initPair (initPair emptyStorage 9 1 2 5).2 9 1 2 5).2 =
      (initPair emptyStorage 9 1 2 5).2 :=
  ⟨(pair_identity_invariant (initPair emptyStorage 9 1 2 5).2
      (Reachable.step_init emptyStorage 9 1 2 5 Reachable.empty)).1
      { factory := 9, token_0 := 1, token_1 := 2, lp_token := 5,
        reserve_0 := 0, reserve_1 := 0, block_timestamp_last := 0 } rfl,
   (pair_identity_invariant (initPair emptyStorage 9 1 2 5).2
      (Reachable.step_init emptyStorage 9 1 2 5 Reachable.empty)).2.1
      9 1 2 5 (by decide)⟩

/-- C8: on a store whose records are absent (never initialized), both
accessors abort (return none) instead of producing a default; after a
successful initialize the record is present so both succeed; and both
accessors leave the store exactly as it was (no writes). -/
theorem accessors_abort_uninitialized (s : InstanceStorage) :
    (s.pairStorage = none → (get_reserves s).1 = none) ∧
    (s.feeState = none → (get_fee_state s).1 = none) ∧
    (∀ f a b l : Addr, (initPair s f a b l).1 = Except.ok () →
      ((get_reserves (initPair s f a b l).2).1).isSome = true ∧
      ((get_fee_state (initPair s f a b l).2).1).isSome = true) ∧
    (get_reserves s).2 = s ∧ (get_fee_state s).2 = s := by
  refine ⟨?_, ?_, ?_, rfl, rfl⟩
  · intro hnone; simp [get_reserves, hnone]
  · intro hnone; simp [get_fee_state, hnone]
  · intro f a b l h
    obtain ⟨hs, hz, hab⟩ := initPair_ok_cases s f a b l h
    rw [initPair_ok_state s f a b l hs hz hab]
    exact ⟨rfl, rfl⟩

/-- Witness for C8: the fresh store aborts both reads, and the store after
one successful initialize serves both. -/
theorem accessors_abort_uninitialized_witness :
    (get_reserves emptyStorage).1 = none ∧
    (get_fee_state emptyStorage).1 = none ∧
    ((get_reserves (initPair emptyStorage 9 1 2 5).2).1).isSome = true ∧
    ((get_fee_state (initPair emptyStorage 9 1 2 5).2).1).isSome = true :=
  ⟨(accessors_abort_uninitialized emptyStorage).1 rfl,
   (accessors_abort_uninitialized emptyStorage).2.1 rfl,
   ((accessors_abort_uninitialized emptyStorage).2.2.1 9 1 2 5 rfl).1,
   ((accessors_abort_uninitialized emptyStorage).2.2.1 9 1 2 5 rfl).2⟩

/-- C9: in every reachable state in which the FeeState record exists it is
exactly the fixed configuration 30/10/100, which satisfies
min_bps <= baseline_bps <= max_bps, and once present it is never changed
by a further initialize call. -/
theorem fee_configuration_invariant (s : InstanceStorage) (h : Reachable s) :
    (∀ fs : FeeState, s.feeState = some fs →
      fs = { baseline_bps := 30, min_bps := 10, max_bps := 100 } ∧
      fs.min_bps ≤ fs.baseline_bps ∧ fs.baseline_bps ≤ fs.max_bps) ∧
    (∀ (fs : FeeState) (f a b l : Addr), s.feeState = some fs →
      ((initPair s f a b l).2).feeState = some fs) := by
  rcases reachable_cases s h with ⟨hnone, hfee, _⟩ | ⟨ps, hps, _, hfee, _⟩
  · constructor
    · intro fs hfs
      rw [hfee] at hfs
      exact absurd hfs (by simp)
    · intro fs f a b l hfs
      rw [hfee] at hfs
      exact absurd hfs (by simp)
  · constructor
    · intro fs hfs
      rw [hfee] at hfs
      obtain rfl : _ = fs := Option.some_injective _ hfs
      exact ⟨rfl, by decide, by decide⟩
    · intro fs f a b l hfs
      rw [initPair_already s f a b l (by simp [hps])]
      exact hfs

/-- Witness for C9 on the state reached by one successful initialize. -/
theorem fee_configuration_invariant_witness :
    ((⟨30, 10, 100⟩ : FeeState) =
        { baseline_bps := 30, min_bps := 10, max_bps := 100 } ∧
      (⟨30, 10, 100⟩ : FeeState).min_bps ≤
        (⟨30, 10, 100⟩ : FeeState).baseline_bps ∧
      (⟨30, 10, 100⟩ : FeeState).baseline_bps ≤
        (⟨30, 10, 100⟩ : FeeState).max_bps) ∧
    ((initPair (initPair emptyStorage 9 1 2 5).2 9 1 2 5).2).feeState =
      some ⟨30, 10, 100⟩ :=
  ⟨(fee_configuration_invariant (initPair emptyStorage 9 1 2 5).2
      (Reachable.step_init emptyStorage 9 1 2 5 Reachable.empty)).1
      ⟨30, 10, 100⟩ rfl,
   (fee_configuration_invariant (initPair emptyStorage 9 1 2 5).2
      (Reachable.step_init emptyStorage 9 1 2 5 Reachable.empty)).2
      ⟨30, 10, 100⟩ 9 1 2 5 rfl⟩

/-- C10: on every successful initialize, the stored factory and lp_token
fields equal the arguments exactly as passed; canonicalization touches
only the token pair. -/
theorem initPair_factory_lp_exact (s : InstanceStorage) (f a b l : Addr)
    (h : (initPair s f a b l).1 = Except.ok ()) :
    ∃ ps : PairStorage, ((initPair s f a b l).2).pairStorage = some ps ∧
      ps.factory = f ∧ ps.lp_token = l := by
  obtain ⟨hs, hz, hab⟩ := initPair_ok_cases s f a b l h
  rw [initPair_ok_state s f a b l hs hz hab]
  exact ⟨_, rfl, rfl, rfl⟩

/-- Witness for C10 at concrete addresses (argument order swapped so the
tokens are reordered while factory and lp_token are not). -/
theorem initPair_factory_lp_exact_witness :
    ∃ ps : PairStorage,
      ((initPair emptyStorage 9 2 1 5).2).pairStorage = some ps ∧
      ps.factory = 9 ∧ ps.lp_token = 5 :=
  initPair_factory_lp_exact emptyStorage 9 2 1 5 rfl
